import Mathlib

/-!
Shallow embedding of the MockRobot device driver (src/driver.py) in Lean 4.

The Python class MockRobotDriver is embedded as a record of session fields
plus explicit state-passing functions.  The remote robot and the network are
modelled by a stream of NetEvent values: each send/select/recv exchange of
the Python code consumes the head of the stream.  Python dynamic typing is
modelled by the PyVal sum type: socket.recv(1024).decode() always produces a
str object, so the decoded wire response enters the code as PyVal.str, and
the isinstance checks of the source pattern-match on the PyVal constructor
exactly as CPython dispatches on the runtime type.  A Python call that
raises an uncaught exception is embedded as PyRes.exn with the state as
mutated up to the raise, since the driver object keeps those mutations.
-/

namespace MockRobot

/-- Valid operations to be received from the UI (enum Operation, driver.py lines 30-34). -/
inductive Operation
  | PICK
  | PLACE
  | TRANSFER
deriving DecidableEq, Repr

/-- Valid status responses from robot status requests (enum ProcessStatus, driver.py lines 37-41). -/
inductive ProcessStatus
  | IN_PROGRESS
  | FINISHED_SUCCESSFULLY
  | TERMINATED_WITH_ERROR
deriving DecidableEq, Repr

/-- Runtime Python values that flow through the driver: str objects, int
objects, ProcessStatus enum members, and None. -/
inductive PyVal
  | str (s : String)
  | pint (n : Int)
  | pstatus (p : ProcessStatus)
  | pynone
deriving DecidableEq, Repr

/-- Result of a Python call: a returned value, or an uncaught exception. -/
inductive PyRes
  | ret (v : PyVal)
  | exn (msg : String)
deriving DecidableEq, Repr

/-- Python str() conversion as used in f-strings. -/
def pyStr : PyVal → String
  | .str s => s
  | .pint n => toString n
  | .pstatus .IN_PROGRESS => "ProcessStatus.IN_PROGRESS"
  | .pstatus .FINISHED_SUCCESSFULLY => "ProcessStatus.FINISHED_SUCCESSFULLY"
  | .pstatus .TERMINATED_WITH_ERROR => "ProcessStatus.TERMINATED_WITH_ERROR"
  | .pynone => "None"

/-- Python isinstance(v, int): true exactly when the runtime value is an int
object.  A decoded socket payload is a str object, never an int. -/
def pyAsInt : PyVal → Option Int
  | .pint n => some n
  | _ => none

/-- Python isinstance(v, ProcessStatus): true exactly when the runtime value
is a ProcessStatus enum member.  A decoded socket payload is a str object. -/
def pyIsStatus : PyVal → Bool
  | .pstatus _ => true
  | _ => false

/-- Python equality v == p against a ProcessStatus enum member: a str, int
or None compares unequal to an enum member. -/
def pyEqStatus (v : PyVal) (p : ProcessStatus) : Bool :=
  match v with
  | .pstatus q => q = p
  | _ => false

/-- Python v != "" as used on the result of try_process: for a str object it
is string inequality; int, enum and None objects all compare unequal to "". -/
def pyNeEmptyStr : PyVal → Bool
  | .str s => s != ""
  | _ => true

/-- Python attribute call v.contains("Error") (driver.py line 375): none of
str, int, ProcessStatus or NoneType defines a contains attribute, so the
attribute lookup raises AttributeError whatever the runtime value is (the
str membership test would be written with the in operator instead). -/
def pyAttrContains (v : PyVal) (sub : String) : Except String Bool :=
  match v, sub with
  | .str _, _ => .error "AttributeError: str object has no attribute contains"
  | .pint _, _ => .error "AttributeError: int object has no attribute contains"
  | .pstatus _, _ => .error "AttributeError: ProcessStatus object has no attribute contains"
  | .pynone, _ => .error "AttributeError: NoneType object has no attribute contains"

/-- Environment model of the remote side: what happens at one
send/select/recv exchange of the driver. -/
inductive NetEvent
  | timeout
  | reply (s : String)
  | sendFail (msg : String)
deriving DecidableEq, Repr

/-- Outcome of one exchange as seen by the Python code. -/
inductive ExchangeResult
  | sendExn (msg : String)
  | noEvent
  | got (s : String)
deriving DecidableEq, Repr

/-- One socket.send + selector.select(timeout=1) + socket.recv(1024).decode()
exchange, consuming the head of the event stream.  An empty stream behaves
like a select with no ready events (the timeout branch). -/
def exchange : List NetEvent → ExchangeResult × List NetEvent
  | [] => (.noEvent, [])
  | .timeout :: rest => (.noEvent, rest)
  | .reply s :: rest => (.got s, rest)
  | .sendFail m :: rest => (.sendExn m, rest)

/-- Session state of the driver object (MockRobotDriver.__init__, driver.py
lines 51-61).  The fixed port 1000, the socket handle and the selector carry
no further observable state in this model: send/recv behaviour is supplied
by the NetEvent stream. -/
structure MockRobotDriver where
  connected : Bool
  ip_address : Option String
  homed : Bool
  current_process : Option Int
deriving DecidableEq, Repr

/-- Fresh driver object: MockRobotDriver.__init__. -/
def initialDriver : MockRobotDriver :=
  { connected := false, ip_address := none, homed := false, current_process := none }

/-- Fixed list self.valid_names (driver.py line 59). -/
def valid_names : List String := ["Destination Location", "Source Location"]

/-- Python v in range(1, 18) for an int v (self.valid_range, driver.py line 61). -/
def inValidRange (v : Int) : Bool := 1 ≤ v && v ≤ 17

/-- Python str(x) for the optional current_process field in f-strings. -/
def optIntStr : Option Int → String
  | none => "None"
  | some n => toString n

/-- Python str(x) for the optional ip_address field in f-strings. -/
def optStrStr : Option String → String
  | none => "None"
  | some s => s

/-- Message of _not_connected_error (driver.py lines 15-19; the source
quotes the words Open Connection). -/
def notConnectedError : String :=
  "Error: MockRobot is not connected. Press Open Connection and then try your request again."

/-- Message of _process_running_error when called with the current_process
argument (driver.py lines 22-27). -/
def processRunningError (current_process : Option Int) : String :=
  "Error: Another process is already running (process_id:" ++ optIntStr current_process ++
    "). Please wait for it to complete and try again"

/-- Not-initialized message of ExecuteOperation (driver.py lines 158-159; the
source quotes the word Initialize). -/
def notInitializedError : String :=
  "Error: MockRobot is not initialized. Press Initialize and then try your request again."

/-- Python repr of self.valid_names as interpolated into validation messages
(the source repr wraps each name in quote characters, elided here). -/
def validNamesStr : String := "[Destination Location, Source Location]"

def invalidOperationMsg : String :=
  "Validation Error: Invalid operation. Supported operations are Pick, Place, and Transfer."

def invalidNameMsg (name : String) : String :=
  "Validation Error: Invalid parameter name: " ++ name ++ ". Select from valid names: " ++ validNamesStr

def invalidValueMsg (v : Int) : String :=
  "Validation Error: Invalid parameter value: " ++ toString v ++ ". Select from valid range: range(1, 18)"

/-- Operation argument as received from the UI: either an Operation enum
member or any other runtime value (the example scripts pass raw strings such
as "Pick").  isinstance(operation, Operation) holds exactly for the op
constructor, and operation == Operation.PICK etc. likewise. -/
inductive OperationArg
  | op (o : Operation)
  | raw (s : String)
deriving DecidableEq, Repr

/-- Result triple of a stateful driver call: updated driver object, remaining
event stream, and the Python result (return value or uncaught exception). -/
abbrev DriverResult := MockRobotDriver × List NetEvent × PyRes

/-- MockRobotDriver.get_status (driver.py lines 384-413): sends
status%&lt;id&gt;, awaits one exchange and classifies.  The whole body is inside
try/except, so get_status never raises; it never mutates driver state.  The
decoded response is a str object, so isinstance(response, ProcessStatus) is
false and every received reply lands in the Unexpected response branch. -/
def get_status (evs : List NetEvent) (process_id : Int) : List NetEvent × PyVal :=
  let _command := "status%" ++ toString process_id
  match exchange evs with
  | (.sendExn m, rest) => (rest, .str ("Error: Failed to retrieve status: " ++ m))
  | (.noEvent, rest) => (rest, .str "Error: Timeout waiting for response. Check connection.")
  | (.got s, rest) =>
      let response : PyVal := .str s
      if pyIsStatus response then (rest, response)
      else (rest, .str ("Error: Unexpected response: " ++ s))

/-- While loop of MockRobotDriver.monitor_process_completion (driver.py lines
363-382).  status holds whatever Python value the previous round produced
(initially the enum member IN_PROGRESS, afterwards the get_status result);
elapsed models t1 - t0, advancing by the 10 second sleep of each round.  The
fuel argument only bounds the recursion for Lean: every reachable round
either returns or consumes one event, so fuel = evs.length + 1 never runs
out.  Note that neither the status-retrieval-error branch nor the timeout
branch clears current_process, exactly as in the source. -/
def monitor_loop (process_id : Int) (tmo : Nat) :
    Nat → List NetEvent → MockRobotDriver → Nat → PyVal → DriverResult
  | 0, evs, st, _, _ => (st, evs, .exn "model: loop fuel exhausted")
  | fuel + 1, evs, st, elapsed, status =>
    if pyEqStatus status .FINISHED_SUCCESSFULLY then
      ({ st with current_process := none }, evs, .ret status)
    else
      let gs := get_status evs process_id
      let evs1 := gs.1
      let status1 := gs.2
      if pyEqStatus status1 .TERMINATED_WITH_ERROR then
        ({ st with current_process := none }, evs1,
          .ret (.str ("Error, process terminated with error: " ++ pyStr status1)))
      else
        match pyAttrContains status1 "Error" with
        | .error m => (st, evs1, .exn m)
        | .ok true =>
            (st, evs1, .ret (.str ("Error, process status could not be retrieved: " ++ pyStr status1)))
        | .ok false =>
            if elapsed + 10 > tmo then
              (st, evs1, .ret (.str "Error: Process timeout. Consider hard reset of instrument."))
            else
              monitor_loop process_id tmo fuel evs1 st (elapsed + 10) status1

/-- MockRobotDriver.monitor_process_completion (driver.py lines 349-382). -/
def monitor_process_completion (st : MockRobotDriver) (evs : List NetEvent)
    (process_id : Int) (tmo : Nat) : DriverResult :=
  match st.current_process with
  | none => (st, evs, .ret (.str "Error: Current process is None. Unexpected state."))
  | some _ => monitor_loop process_id tmo (evs.length + 1) evs st 0 (.pstatus .IN_PROGRESS)

/-- MockRobotDriver.try_process (driver.py lines 238-281).  The timeout
parameter is accepted but unused, as in the source (the select uses a fixed
1 second and the monitor a fixed 300).  The decoded response is a str
object, so isinstance(response, int) on line 260 is false for every reply
and the classification branch below it is unreachable; it is embedded
anyway, faithful to the source.  The monitor call on line 278 sits outside
the try block, so an exception it raises propagates. -/
def try_process (st : MockRobotDriver) (evs : List NetEvent)
    (command : String) (tmo : Nat) : DriverResult :=
  let _ := (command, tmo)
  match exchange evs with
  | (.sendExn m, rest) => (st, rest, .ret (.str ("Error: Failed to start process: " ++ m)))
  | (.noEvent, rest) => (st, rest, .ret (.str "Error: Timeout waiting for response."))
  | (.got s, rest) =>
      let response : PyVal := .str s
      match pyAsInt response with
      | some process_id =>
          if process_id < 0 then
            (st, rest, .ret (.str (processRunningError st.current_process)))
          else
            let st1 := { st with current_process := some process_id }
            let r := monitor_process_completion st1 rest process_id 300
            match r.2.2 with
            | .exn m => (r.1, r.2.1, .exn m)
            | .ret status =>
                if pyEqStatus status .FINISHED_SUCCESSFULLY then (r.1, r.2.1, .ret (.str ""))
                else (r.1, r.2.1, .ret .pynone)
      | none => (st, rest, .ret (.str ("Error: Unknown response: " ++ s)))

/-- MockRobotDriver.pick (driver.py lines 283-303). -/
def pick (st : MockRobotDriver) (evs : List NetEvent) (source_location : Int) : DriverResult :=
  let command := "pick%" ++ toString source_location
  let r := try_process st evs command 300
  match r.2.2 with
  | .exn m => (r.1, r.2.1, .exn m)
  | .ret response =>
      if pyNeEmptyStr response then
        (r.1, r.2.1, .ret (.str ("Pick command failed: " ++ pyStr response)))
      else
        (r.1, r.2.1, .ret (.str ""))

/-- MockRobotDriver.place (driver.py lines 305-325). -/
def place (st : MockRobotDriver) (evs : List NetEvent) (destination_location : Int) : DriverResult :=
  let command := "place%" ++ toString destination_location
  let r := try_process st evs command 300
  match r.2.2 with
  | .exn m => (r.1, r.2.1, .exn m)
  | .ret response =>
      if pyNeEmptyStr response then
        (r.1, r.2.1, .ret (.str ("Place command failed: " ++ pyStr response)))
      else
        (r.1, r.2.1, .ret (.str ""))

/-- MockRobotDriver.transfer (driver.py lines 327-347).
parameter_names.index(x) raises ValueError when x is absent, and
parameter_values[i] raises IndexError when i is out of range, both uncaught
here. -/
def transfer (st : MockRobotDriver) (evs : List NetEvent)
    (parameter_names : List String) (parameter_values : List Int) : DriverResult :=
  match parameter_names.findIdx? (fun n => n = "Source Location") with
  | none => (st, evs, .exn "ValueError: Source Location is not in list")
  | some i =>
    match parameter_values.get? i with
    | none => (st, evs, .exn "IndexError: list index out of range")
    | some source_location =>
      match parameter_names.findIdx? (fun n => n = "Destination Location") with
      | none => (st, evs, .exn "ValueError: Destination Location is not in list")
      | some j =>
        match parameter_values.get? j with
        | none => (st, evs, .exn "IndexError: list index out of range")
        | some destination_location =>
          let r := pick st evs source_location
          match r.2.2 with
          | .exn m => (r.1, r.2.1, .exn m)
          | .ret pick_response =>
              if pyNeEmptyStr pick_response then
                (r.1, r.2.1, .ret pick_response)
              else
                place r.1 r.2.1 destination_location

/-- MockRobotDriver.validate_inputs (driver.py lines 205-236): operation
kind first, then each parameter name in order, then each parameter value in
order, returning on the first failure. -/
def validate_inputs (operation : OperationArg)
    (parameter_names : List String) (parameter_values : List Int) : Bool × String :=
  match operation with
  | .raw _ => (false, invalidOperationMsg)
  | .op _ =>
    match parameter_names.find? (fun n => !(valid_names.contains n)) with
    | some name => (false, invalidNameMsg name)
    | none =>
      match parameter_values.find? (fun v => !(inValidRange v)) with
      | some v => (false, invalidValueMsg v)
      | none => (true, "Inputs validated")

/-- MockRobotDriver.OpenConnection (driver.py lines 64-97).  The socket
creation, 5 second connect timeout and selector registration are modelled by
the connect_error argument: none means the connect succeeded, some e means
the try block raised with message e (the partially created socket is closed
and the error string returned). -/
def OpenConnection (st : MockRobotDriver) (evs : List NetEvent)
    (ip_address : String) (connect_error : Option String) : DriverResult :=
  if st.connected then
    (st, evs, .ret (.str ("Connection already open on " ++ optStrStr st.ip_address ++
      ". Press Abort to close the current connection before attempting to establish a new one")))
  else
    match connect_error with
    | some e =>
        (st, evs, .ret (.str ("Error: Failed to connect: " ++ e ++
          " Make sure the robot is on and connected power.")))
    | none =>
        ({ st with connected := true, ip_address := some ip_address }, evs, .ret (.str ""))

/-- MockRobotDriver.Initialize (driver.py lines 99-133).  Line 115 calls
self.try_process("home") with a single argument, but try_process has
signature (self, command, timeout); CPython therefore raises TypeError at
the call site, before any command is sent, leaving the homed := false
mutation of line 111 in place.  Lines 116-133 are unreachable. -/
def Initialize (st : MockRobotDriver) (evs : List NetEvent) : DriverResult :=
  if !st.connected then
    (st, evs, .ret (.str notConnectedError))
  else
    let st1 := if st.homed then { st with homed := false } else st
    (st1, evs, .exn "TypeError: try_process missing 1 required positional argument: timeout")

/-- MockRobotDriver.ExecuteOperation (driver.py lines 135-180): connected,
homed and no-process preconditions in order, then validation, then dispatch
on equality with the Operation enum members.  parameter_values[0] in the
Pick and Place branches raises IndexError on an empty list.  When the
operation equals none of the three members the if/elif chain falls through
and Python returns None; validation makes that branch unreachable. -/
def ExecuteOperation (st : MockRobotDriver) (evs : List NetEvent)
    (operation : OperationArg) (parameter_names : List String)
    (parameter_values : List Int) : DriverResult :=
  if !st.connected then
    (st, evs, .ret (.str notConnectedError))
  else if !st.homed then
    (st, evs, .ret (.str notInitializedError))
  else
    match st.current_process with
    | some p => (st, evs, .ret (.str (processRunningError (some p))))
    | none =>
      let valid := validate_inputs operation parameter_names parameter_values
      if !valid.1 then
        (st, evs, .ret (.str valid.2))
      else
        match operation with
        | .op .PICK =>
            match parameter_values.get? 0 with
            | none => (st, evs, .exn "IndexError: list index out of range")
            | some v => pick st evs v
        | .op .PLACE =>
            match parameter_values.get? 0 with
            | none => (st, evs, .exn "IndexError: list index out of range")
            | some v => place st evs v
        | .op .TRANSFER => transfer st evs parameter_names parameter_values
        | .raw _ => (st, evs, .ret .pynone)

/-- MockRobotDriver.Abort (driver.py lines 182-202).  Line 194 calls
_process_running_error() without its required current_process argument, so
when a process is in flight CPython raises TypeError instead of returning
the process-running error string.  Otherwise the socket is closed and the
session reset (current_process is already none in that branch). -/
def Abort (st : MockRobotDriver) (evs : List NetEvent) : DriverResult :=
  if !st.connected then
    (st, evs, .ret (.str notConnectedError))
  else
    match st.current_process with
    | some _ =>
        (st, evs, .exn "TypeError: _process_running_error missing 1 required positional argument: current_process")
    | none =>
        ({ st with connected := false, ip_address := none, homed := false }, evs, .ret (.str ""))

/-- UI-facing call together with its inputs and the remote behaviour it
meets, for reasoning about call sequences. -/
inductive UICall
  | openUI (ip : String) (connect_error : Option String) (evs : List NetEvent)
  | initUI (evs : List NetEvent)
  | execUI (operation : OperationArg) (names : List String)
      (values : List Int) (evs : List NetEvent)
  | abortUI (evs : List NetEvent)

/-- Driver state after one UI-facing call (exceptions leave the driver
object with the mutations performed before the raise). -/
def runCall (st : MockRobotDriver) : UICall → MockRobotDriver
  | .openUI ip ce evs => (OpenConnection st evs ip ce).1
  | .initUI evs => (Initialize st evs).1
  | .execUI operation names values evs =>
      (ExecuteOperation st evs operation names values).1
  | .abortUI evs => (Abort st evs).1

/-- Driver state after a sequence of UI-facing calls. -/
def runCalls (st : MockRobotDriver) : List UICall → MockRobotDriver
  | [] => st
  | c :: cs => runCalls (runCall st c) cs

/-- Session invariants of spec section 3: homed only while connected, and
ip_address set exactly while connected. -/
def sessionInv (st : MockRobotDriver) : Prop :=
  (st.homed = true → st.connected = true) ∧ (st.ip_address.isSome ↔ st.connected = true)

/-- Connected driver that has not been homed (state after a successful
OpenConnection). -/
def connectedDriver : MockRobotDriver :=
  { connected := true, ip_address := some "127.0.0.1", homed := false, current_process := none }

/-- Connected and homed driver with no process in flight. -/
def readyDriver : MockRobotDriver :=
  { connected := true, ip_address := some "127.0.0.1", homed := true, current_process := none }

/-- Connected and homed driver with process 7 in flight. -/
def inFlightDriver : MockRobotDriver :=
  { connected := true, ip_address := some "127.0.0.1", homed := true, current_process := some 7 }

/-- Agreement of the session fields other than current_process. -/
def sessionFieldsEq (st1 st2 : MockRobotDriver) : Prop :=
  st2.connected = st1.connected ∧ st2.ip_address = st1.ip_address ∧ st2.homed = st1.homed

/-- Transitivity of session-field agreement. -/
theorem sessionFieldsEq_trans {st1 st2 st3 : MockRobotDriver}
    (h12 : sessionFieldsEq st1 st2) (h23 : sessionFieldsEq st2 st3) :
    sessionFieldsEq st1 st3 :=
  ⟨h23.1.trans h12.1, h23.2.1.trans h12.2.1, h23.2.2.trans h12.2.2⟩

/-- The monitoring loop only ever touches the current_process field. -/
theorem monitor_loop_fields (process_id : Int) (tmo : Nat) :
    ∀ (fuel : Nat) (evs : List NetEvent) (st : MockRobotDriver) (elapsed : Nat) (status : PyVal),
      sessionFieldsEq st (monitor_loop process_id tmo fuel evs st elapsed status).1 := by
  intro fuel
  induction fuel with
  | zero => intro evs st elapsed status; exact ⟨rfl, rfl, rfl⟩
  | succ n ih =>
    intro evs st elapsed status
    unfold monitor_loop
    dsimp only
    repeat' split
    all_goals first
      | exact ⟨rfl, rfl, rfl⟩
      | exact ih _ st _ _

/-- monitor_process_completion only ever touches the current_process field. -/
theorem monitor_fields (st : MockRobotDriver) (evs : List NetEvent)
    (process_id : Int) (tmo : Nat) :
    sessionFieldsEq st (monitor_process_completion st evs process_id tmo).1 := by
  unfold monitor_process_completion
  split
  · exact ⟨rfl, rfl, rfl⟩
  · exact monitor_loop_fields process_id tmo _ evs st 0 _

/-- try_process only ever touches the current_process field. -/
theorem try_process_fields (st : MockRobotDriver) (evs : List NetEvent)
    (command : String) (tmo : Nat) :
    sessionFieldsEq st (try_process st evs command tmo).1 := by
  unfold try_process
  dsimp only
  repeat' split
  all_goals first
    | exact ⟨rfl, rfl, rfl⟩
    | exact monitor_fields _ _ _ 300

/-- pick only ever touches the current_process field. -/
theorem pick_fields (st : MockRobotDriver) (evs : List NetEvent) (source_location : Int) :
    sessionFieldsEq st (pick st evs source_location).1 := by
  unfold pick
  dsimp only
  repeat' split
  all_goals exact try_process_fields st evs _ 300

/-- place only ever touches the current_process field. -/
theorem place_fields (st : MockRobotDriver) (evs : List NetEvent) (destination_location : Int) :
    sessionFieldsEq st (place st evs destination_location).1 := by
  unfold place
  dsimp only
  repeat' split
  all_goals exact try_process_fields st evs _ 300

/-- transfer only ever touches the current_process field. -/
theorem transfer_fields (st : MockRobotDriver) (evs : List NetEvent)
    (parameter_names : List String) (parameter_values : List Int) :
    sessionFieldsEq st (transfer st evs parameter_names parameter_values).1 := by
  unfold transfer
  dsimp only
  repeat' split
  all_goals first
    | exact ⟨rfl, rfl, rfl⟩
    | exact pick_fields st evs _
    | exact sessionFieldsEq_trans (pick_fields st evs _) (place_fields _ _ _)

/-- ExecuteOperation only ever touches the current_process field. -/
theorem executeOperation_fields (st : MockRobotDriver) (evs : List NetEvent)
    (operation : OperationArg) (parameter_names : List String)
    (parameter_values : List Int) :
    sessionFieldsEq st (ExecuteOperation st evs operation parameter_names parameter_values).1 := by
  unfold ExecuteOperation
  dsimp only
  repeat' split
  all_goals first
    | exact ⟨rfl, rfl, rfl⟩
    | exact pick_fields st evs _
    | exact place_fields st evs _
    | exact transfer_fields st evs parameter_names parameter_values

/-- Session-field agreement transports the session invariants. -/
theorem sessionInv_of_fieldsEq {st st2 : MockRobotDriver}
    (h : sessionFieldsEq st st2) (hinv : sessionInv st) : sessionInv st2 := by
  obtain ⟨hc, hip, hh⟩ := h
  exact ⟨fun hh2 => hc.trans (hinv.1 (hh.symm.trans hh2)),
    by rw [hip, hc]; exact hinv.2⟩

/-- Every single UI-facing call preserves the session invariants. -/
theorem runCall_inv (st : MockRobotDriver) (c : UICall)
    (hinv : sessionInv st) : sessionInv (runCall st c) := by
  cases c with
  | openUI ip ce evs =>
      simp only [runCall, OpenConnection]
      split
      · exact hinv
      · split
        · exact hinv
        · exact ⟨fun _ => rfl, by simp⟩
  | initUI evs =>
      simp only [runCall, Initialize]
      split
      · exact hinv
      · next hc =>
          have hcon : st.connected = true := by
            cases h : st.connected
            · rw [h] at hc; simp at hc
            · rfl
          split
          · exact ⟨fun _ => hcon, hinv.2⟩
          · exact hinv
  | execUI operation names values evs =>
      exact sessionInv_of_fieldsEq (executeOperation_fields st evs operation names values) hinv
  | abortUI evs =>
      simp only [runCall, Abort]
      split
      · exact hinv
      · split
        · exact hinv
        · exact ⟨fun h => by simp at h, by simp⟩

/-- Sequences of UI-facing calls preserve the session invariants. -/
theorem runCalls_inv (cs : List UICall) :
    ∀ (st : MockRobotDriver), sessionInv st → sessionInv (runCalls st cs) := by
  induction cs with
  | nil => intro st h; exact h
  | cons c cs ih => intro st h; exact ih (runCall st c) (runCall_inv st c h)

/-- The fresh driver satisfies the session invariants. -/
theorem initialDriver_inv : sessionInv initialDriver := by
  refine ⟨fun h => ?_, by simp [initialDriver, sessionInv]⟩
  simp [initialDriver] at h

/-- With a parameter name outside valid_names present, validate_inputs
fails with an invalid-name message naming an invalid name. -/
theorem validate_inputs_bad_name (o : Operation) (names : List String) (values : List Int)
    (n : String) (hmem : n ∈ names) (hbad : valid_names.contains n = false) :
    ∃ m, validate_inputs (.op o) names values = (false, invalidNameMsg m)
      ∧ valid_names.contains m = false := by
  have hsome : (names.find? (fun x => !(valid_names.contains x))).isSome := by
    rw [List.find?_isSome]
    exact ⟨n, hmem, by rw [hbad]; rfl⟩
  obtain ⟨m, hm⟩ := Option.isSome_iff_exists.mp hsome
  have pm := List.find?_some hm
  refine ⟨m, ?_, ?_⟩
  · unfold validate_inputs
    rw [hm]
  · revert pm
    cases valid_names.contains m <;> simp

/-- With every parameter name valid and a value outside the valid range
present, validate_inputs fails with an invalid-value message naming an
out-of-range value. -/
theorem validate_inputs_bad_value (o : Operation) (names : List String) (values : List Int)
    (hnames : ∀ n ∈ names, valid_names.contains n = true)
    (v : Int) (hmem : v ∈ values) (hbad : inValidRange v = false) :
    ∃ w, validate_inputs (.op o) names values = (false, invalidValueMsg w)
      ∧ inValidRange w = false := by
  have hnone : names.find? (fun x => !(valid_names.contains x)) = none := by
    rw [List.find?_eq_none]
    intro x hx
    rw [hnames x hx]
    simp
  have hsome : (values.find? (fun x => !(inValidRange x))).isSome := by
    rw [List.find?_isSome]
    exact ⟨v, hmem, by rw [hbad]; rfl⟩
  obtain ⟨w, hw⟩ := Option.isSome_iff_exists.mp hsome
  have pw := List.find?_some hw
  refine ⟨w, ?_, ?_⟩
  · unfold validate_inputs
    rw [hnone, hw]
  · revert pw
    cases inValidRange w <;> simp

/-- C1: the claim says every UI-facing call returns a string and no internal
error escapes as an uncaught exception.  The code contradicts it: on a
connected driver, Initialize calls try_process with one argument where two
are required (driver.py line 115), so CPython raises an uncaught TypeError
before any command is sent; the call never returns a string. -/
theorem C1_initialize_raises_uncaught :
    Initialize connectedDriver [] =
      (connectedDriver, [],
        .exn "TypeError: try_process missing 1 required positional argument: timeout") := rfl

/-- C2: the claim says ExecuteOperation(Pick, [Source Location], [v]) on a
connected homed idle driver returns the empty string once the remote side
reports success.  The code contradicts it: the decoded start reply is a str
object, so isinstance(response, int) (driver.py line 260) is false, every
reply is treated as unknown, and the call returns a non-empty error even
when the remote assigns process id 7 and would report Finished Successfully. -/
theorem C2_pick_eventual_success_still_fails :
    ExecuteOperation readyDriver [.reply "7", .reply "Finished Successfully"]
        (.op .PICK) ["Source Location"] [5] =
      (readyDriver, [.reply "Finished Successfully"],
        .ret (.str "Pick command failed: Error: Unknown response: 7")) := rfl

/-- C3: the claim says the start-process reply is classified into
remote-error, process-already-running (negative id) and non-negative
process id, with a malformed-response error otherwise.  The code contradicts
it: because isinstance(response, int) is false for the decoded str, all
three reply shapes collapse into the same Unknown response error and no
process id is ever recorded. -/
theorem C3_start_reply_never_classified :
    try_process readyDriver [.reply "-1"] "pick%5" 300 =
        (readyDriver, [], .ret (.str "Error: Unknown response: -1"))
    ∧ try_process readyDriver [.reply "7"] "pick%5" 300 =
        (readyDriver, [], .ret (.str "Error: Unknown response: 7"))
    ∧ try_process readyDriver [.reply "Error: arm jammed"] "pick%5" 300 =
        (readyDriver, [], .ret (.str "Error: Unknown response: Error: arm jammed")) :=
  ⟨rfl, rfl, rfl⟩

/-- C4: the claim says the monitoring loop terminates on exactly four
outcomes (success, terminated-with-error, surfaced status-query error,
timeout with current_process cleared).  The code contradicts it: get_status
returns a str object for every reply, the comparison with the enum fails,
and status.contains (driver.py line 375) raises an uncaught AttributeError
on the very first poll, leaving current_process set; the timeout branch of
the source likewise returns without clearing current_process. -/
theorem C4_monitor_first_poll_raises :
    monitor_process_completion inFlightDriver [.reply "In Progress"] 7 120 =
      (inFlightDriver, [], .exn "AttributeError: str object has no attribute contains") := rfl

/-- C5: the claim says Abort on a connected driver with a process in flight
returns a process-running error string without changing state.  The code
contradicts it: driver.py line 194 calls _process_running_error() without
its required current_process argument, so CPython raises an uncaught
TypeError instead of returning the error string. -/
theorem C5_abort_in_flight_raises :
    Abort inFlightDriver [] =
      (inFlightDriver, [],
        .exn "TypeError: _process_running_error missing 1 required positional argument: current_process") := rfl

/-- C6: for every Transfer request, if the Pick leg returns a non-empty
error string then the Place leg is never attempted and the Transfer returns
exactly the Pick error: the transfer result equals the Pick result,
including the driver state and the unconsumed remainder of the event
stream, so no Place command reaches the wire. -/
theorem C6_transfer_failure_atomicity (st st1 : MockRobotDriver)
    (evs evs1 : List NetEvent) (names : List String) (values : List Int)
    (i j : Nat) (src dst : Int) (e : String)
    (hi : names.findIdx? (fun n => n = "Source Location") = some i)
    (hv : values.get? i = some src)
    (hj : names.findIdx? (fun n => n = "Destination Location") = some j)
    (hw : values.get? j = some dst)
    (hp : pick st evs src = (st1, evs1, .ret (.str e)))
    (he : e ≠ "") :
    transfer st evs names values = (st1, evs1, .ret (.str e)) := by
  unfold transfer
  simp only [hi, hv, hj, hw, hp]
  simp [pyNeEmptyStr, he]

/-- Witness for C6 at a concrete transfer whose Pick leg fails. -/
theorem C6_transfer_failure_atomicity_witness :
    transfer readyDriver [.reply "7"] ["Source Location", "Destination Location"] [5, 6] =
      (readyDriver, [], .ret (.str "Pick command failed: Error: Unknown response: 7")) :=
  C6_transfer_failure_atomicity readyDriver readyDriver [.reply "7"] []
    ["Source Location", "Destination Location"] [5, 6] 0 1 5 6
    "Pick command failed: Error: Unknown response: 7" rfl rfl rfl rfl rfl (by decide)

/-- C7: validation checks the operation kind first (an unknown operation is
rejected whatever the names and values are), then parameter names (a bad
name is reported whatever the values are), then parameter values, returning
on the first failure; consequently ExecuteOperation on a connected homed
idle driver with a value outside 1..17 returns the invalid-parameter-value
message, leaves the state unchanged and consumes no network event, so no
remote process is started. -/
theorem C7_validation_order_and_out_of_range (st : MockRobotDriver) (evs : List NetEvent)
    (o : Operation) (names : List String) (values : List Int) (v : Int)
    (hc : st.connected = true) (hh : st.homed = true) (hcp : st.current_process = none)
    (hv : inValidRange v = false) :
    (∀ (s : String) (names2 : List String) (values2 : List Int),
        validate_inputs (.raw s) names2 values2 = (false, invalidOperationMsg))
    ∧ (∀ (values2 : List Int) (n : String), n ∈ names → valid_names.contains n = false →
        ∃ m, validate_inputs (.op o) names values2 = (false, invalidNameMsg m)
          ∧ valid_names.contains m = false)
    ∧ ((∀ n ∈ names, valid_names.contains n = true) → v ∈ values →
        ∃ w, validate_inputs (.op o) names values = (false, invalidValueMsg w)
          ∧ inValidRange w = false)
    ∧ ExecuteOperation st evs (.op o) ["Source Location"] [v]
        = (st, evs, .ret (.str (invalidValueMsg v))) := by
  refine ⟨fun s names2 values2 => rfl,
    fun values2 n hmem hbad => validate_inputs_bad_name o names values2 n hmem hbad,
    fun hnames hmem => validate_inputs_bad_value o names values hnames v hmem hv, ?_⟩
  have hval : validate_inputs (.op o) ["Source Location"] [v] = (false, invalidValueMsg v) := by
    unfold validate_inputs
    have h1 : List.find? (fun x => !(valid_names.contains x)) ["Source Location"] = none := by
      decide
    have h2 : List.find? (fun x => !(inValidRange x)) [v] = some v := by
      simp [List.find?, hv]
    rw [h1, h2]
  simp [ExecuteOperation, hc, hh, hcp, hval]

/-- Witness for C7 at the out-of-range value 0 on the ready driver. -/
theorem C7_validation_order_and_out_of_range_witness :
    ExecuteOperation readyDriver [] (.op .PICK) ["Source Location"] [0] =
      (readyDriver, [], .ret (.str (invalidValueMsg 0))) :=
  (C7_validation_order_and_out_of_range readyDriver [] .PICK ["Source Location"] [0] 0
    rfl rfl rfl (by decide)).2.2.2

/-- C8: the claim says a second Initialize on an already-homed connected
driver re-runs homing and ends with homed = true and an empty string.  The
code contradicts it: it first sets homed to false (driver.py line 111) and
then raises an uncaught TypeError at the one-argument try_process call on
line 115, so the call never re-homes and leaves homed = false. -/
theorem C8_reinitialize_raises :
    Initialize readyDriver [] =
      ({ connected := true, ip_address := some "127.0.0.1", homed := false,
          current_process := none }, [],
        .exn "TypeError: try_process missing 1 required positional argument: timeout") := rfl

/-- C9: in every state reachable from the fresh driver by any sequence of
OpenConnection, Initialize, ExecuteOperation and Abort calls, under any
inputs and any remote responses, homed is true only if connected is true,
and ip_address is set if and only if connected is true. -/
theorem C9_session_invariants_reachable (cs : List UICall) :
    sessionInv (runCalls initialDriver cs) :=
  runCalls_inv cs initialDriver initialDriver_inv

/-- C10: validation never checks that the required parameter names are
present or that the parameter lists are non-empty: Transfer with only
Source Location and Pick with empty lists both pass validation, and the
dispatch code then indexes the missing element, raising an uncaught
ValueError or IndexError instead of returning an error string. -/
theorem C10_missing_parameters_pass_validation_then_raise :
    validate_inputs (.op .TRANSFER) ["Source Location"] [5] = (true, "Inputs validated")
    ∧ validate_inputs (.op .PICK) [] [] = (true, "Inputs validated")
    ∧ ExecuteOperation readyDriver [.reply "7"] (.op .TRANSFER) ["Source Location"] [5] =
        (readyDriver, [.reply "7"], .exn "ValueError: Destination Location is not in list")
    ∧ ExecuteOperation readyDriver [] (.op .PICK) [] [] =
        (readyDriver, [], .exn "IndexError: list index out of range") :=
  ⟨rfl, rfl, rfl, rfl⟩

end MockRobot
